import Mathlib

/-!
Verification of the hash-comparison core of the `cf-image-compare` service.

The development shallowly embeds:
  * `src/utils/hammingDistance.ts` (`calculateHammingDistance`, `hexToBinary`),
  * `src/services/imageService.ts` (`compareImageHashes`,
    `compareHashWithCandidates`, `isValidHash`), and
  * the `POST /compare` and `POST /compare-batch` handlers of
    `src/routes/imageRoutes.ts`.

JavaScript numbers are modelled as `JNum` (a rational, NaN, or a signed
infinity); every numeric value actually produced by the embedded code is an
integer or a dyadic rational that IEEE-754 doubles represent exactly, so the
rational model coincides with the runtime arithmetic.  Request-body fields are
modelled as `JPrim`/`JVal` values, since at runtime the untyped JSON body can
put a value of any type into `threshold` and the handlers' guards plus the
`<=` coercion in the service are type-sensitive.
-/

/-- JNum: a JavaScript number: a finite value, NaN, or a signed infinity. -/
inductive JNum where
  | fin (q : Rat)
  | nan
  | posInf
  | negInf
deriving DecidableEq

/-- JPrim: a non-array JavaScript value as it can appear in a parsed JSON
request body (plus `undefined` for an absent field). -/
inductive JPrim where
  | undef
  | null
  | bool (b : Bool)
  | num (x : JNum)
  | str (s : String)
deriving DecidableEq

/-- JVal: a request-body field that may also be an array of primitives
(the shape `candidateHashes` takes in a batch request). -/
inductive JVal where
  | prim (p : JPrim)
  | arr (elems : List JPrim)
deriving DecidableEq

/-- Value of a single character as a base-16 digit, as `parseInt(char, 16)`
computes it: `0-9`, `a-f`, `A-F` map to 0..15, anything else is NaN (`none`). -/
def hexCharValue (c : Char) : Option Nat :=
  let n := c.toNat
  if 48 ≤ n ∧ n ≤ 57 then some (n - 48)
  else if 97 ≤ n ∧ n ≤ 102 then some (n - 97 + 10)
  else if 65 ≤ n ∧ n ≤ 70 then some (n - 65 + 10)
  else none

/-- Whether a character belongs to the `[0-9a-fA-F]` class of the validation
regular expression. -/
def isHexDigitChar (c : Char) : Bool :=
  (hexCharValue c).isSome

/-- Characters the ECMAScript `ToNumber(string)` conversion trims: whitespace
and line terminators (TAB, LF, VT, FF, CR, SP, NBSP, Ogham space, the
U+2000–U+200A spaces, LS, PS, NNBSP, MMSP, ideographic space, ZWNBSP). -/
def isJsWhitespaceChar (c : Char) : Bool :=
  c.toNat = 0x9 || c.toNat = 0xA || c.toNat = 0xB || c.toNat = 0xC ||
  c.toNat = 0xD || c.toNat = 0x20 || c.toNat = 0xA0 || c.toNat = 0x1680 ||
  (0x2000 ≤ c.toNat && c.toNat ≤ 0x200A) ||
  c.toNat = 0x2028 || c.toNat = 0x2029 || c.toNat = 0x202F ||
  c.toNat = 0x205F || c.toNat = 0x3000 || c.toNat = 0xFEFF

/-- Strip leading and trailing JavaScript whitespace from a character list. -/
def jsTrim (l : List Char) : List Char :=
  ((l.dropWhile isJsWhitespaceChar).reverse.dropWhile isJsWhitespaceChar).reverse

/-- Value of a character as a digit in the given base, if it is one. -/
def digitValInBase (base : Nat) (c : Char) : Option Nat :=
  match hexCharValue c with
  | some d => if d < base then some d else none
  | none => none

/-- Numeric value of a list of decimal digit characters. -/
def decDigitsToNat (l : List Char) : Nat :=
  l.foldl (fun a c => a * 10 + (c.toNat - 48)) 0

/-- Numeric value of a nonempty all-decimal-digit character list, else `none`. -/
def decDigitsVal (l : List Char) : Option Nat :=
  if l.isEmpty || !(l.all Char.isDigit) then none else some (decDigitsToNat l)

/-- Exponent of a decimal literal: optionally signed decimal digits. -/
def parseSignedDigits (l : List Char) : Option Int :=
  match l with
  | '+' :: rest => (decDigitsVal rest).map (fun n => (n : Int))
  | '-' :: rest => (decDigitsVal rest).map (fun n => -(n : Int))
  | _ => (decDigitsVal l).map (fun n => (n : Int))

/-- Finish a decimal literal: the remaining characters must be empty or an
`e`/`E` exponent part applied to the mantissa. -/
def parseExponentTail (mant : Rat) (l : List Char) : Option Rat :=
  match l with
  | [] => some mant
  | e :: rest =>
    if e = 'e' || e = 'E' then
      (parseSignedDigits rest).map (fun ex => mant * (10 : Rat) ^ ex)
    else none

/-- An unsigned ECMAScript decimal literal `Digits [. Digits] [Exp]` or
`. Digits [Exp]`, consuming the whole list; `none` when malformed. -/
def parseUnsignedDecimal (l : List Char) : Option Rat :=
  let ip := l.takeWhile Char.isDigit
  let rest := l.dropWhile Char.isDigit
  match rest with
  | '.' :: rest2 =>
    let fp := rest2.takeWhile Char.isDigit
    let rest3 := rest2.dropWhile Char.isDigit
    if ip.isEmpty && fp.isEmpty then none
    else
      parseExponentTail
        ((decDigitsToNat ip : Rat) + (decDigitsToNat fp : Rat) / (10 : Rat) ^ fp.length)
        rest3
  | _ =>
    if ip.isEmpty then none
    else parseExponentTail ((decDigitsToNat ip : Rat)) rest

/-- Numeric value of a list of digits in the given base (used once the digits
have been checked). -/
def baseDigitsToNat (base : Nat) (l : List Char) : Nat :=
  l.foldl (fun a c => a * base + ((hexCharValue c).getD 0)) 0

/-- A `0x`/`0o`/`0b` literal body: nonempty digits of the base, else NaN. -/
def matchBaseDigits (base : Nat) (l : List Char) : JNum :=
  if l.isEmpty || !(l.all (fun c => (digitValInBase base c).isSome)) then JNum.nan
  else JNum.fin ((baseDigitsToNat base l : Nat) : Rat)

/-- Unsigned part of a decimal string literal: `Infinity` or a decimal
literal; `neg` records a leading minus sign. -/
def unsignedTop (l : List Char) (neg : Bool) : JNum :=
  if l = "Infinity".data then (if neg then JNum.negInf else JNum.posInf)
  else
    match parseUnsignedDecimal l with
    | some q => JNum.fin (if neg then -q else q)
    | none => JNum.nan

/-- An optionally signed decimal string literal. -/
def signedDecimal (l : List Char) : JNum :=
  match l with
  | '+' :: rest => unsignedTop rest false
  | '-' :: rest => unsignedTop rest true
  | _ => unsignedTop l false

/-- ECMAScript `ToNumber` on a string: trim, empty means 0, then a
non-decimal (`0x`/`0o`/`0b`) literal or an optionally signed decimal literal;
anything else is NaN. -/
def strToNumber (s : String) : JNum :=
  let t := jsTrim s.data
  if t.isEmpty then JNum.fin 0
  else
    match t with
    | '0' :: c :: rest =>
      if c = 'x' || c = 'X' then matchBaseDigits 16 rest
      else if c = 'o' || c = 'O' then matchBaseDigits 8 rest
      else if c = 'b' || c = 'B' then matchBaseDigits 2 rest
      else signedDecimal t
    | _ => signedDecimal t

/-- ECMAScript `ToNumber` on a primitive value, as the relational operators
apply it: `undefined` is NaN, `null` is 0, booleans are 0/1, strings parse. -/
def jsToNumber : JPrim → JNum
  | JPrim.undef => JNum.nan
  | JPrim.null => JNum.fin 0
  | JPrim.bool b => JNum.fin (if b then 1 else 0)
  | JPrim.num x => x
  | JPrim.str s => strToNumber s

/-- The JavaScript `<=` on numbers: false whenever either side is NaN. -/
def jnLe : JNum → JNum → Bool
  | JNum.nan, _ => false
  | _, JNum.nan => false
  | JNum.negInf, _ => true
  | _, JNum.posInf => true
  | JNum.posInf, _ => false
  | _, JNum.negInf => false
  | JNum.fin a, JNum.fin b => a ≤ b

/-- The JavaScript `<` on numbers: false whenever either side is NaN. -/
def jnLt : JNum → JNum → Bool
  | JNum.nan, _ => false
  | _, JNum.nan => false
  | JNum.posInf, _ => false
  | JNum.negInf, JNum.negInf => false
  | JNum.negInf, _ => true
  | JNum.fin _, JNum.negInf => false
  | JNum.fin a, JNum.fin b => a < b
  | JNum.fin _, JNum.posInf => true

/-- JavaScript truthiness test on a primitive (`!v` negates this):
`undefined`, `null`, `false`, `±0`, NaN and `""` are falsy. -/
def jsFalsy : JPrim → Bool
  | JPrim.undef => true
  | JPrim.null => true
  | JPrim.bool b => !b
  | JPrim.num (JNum.fin q) => q == 0
  | JPrim.num JNum.nan => true
  | JPrim.num _ => false
  | JPrim.str s => s == ""

/-- Truthiness of a possibly-array body field: arrays are always truthy. -/
def jvalFalsy : JVal → Bool
  | JVal.prim p => jsFalsy p
  | JVal.arr _ => false

/-- The JavaScript `typeof` operator on the modelled primitives. -/
def jsTypeof : JPrim → String
  | JPrim.undef => "undefined"
  | JPrim.null => "object"
  | JPrim.bool _ => "boolean"
  | JPrim.num _ => "number"
  | JPrim.str _ => "string"

/-- `Number.isNaN`: true exactly on the NaN number value, with no coercion. -/
def jprimIsNaN : JPrim → Bool
  | JPrim.num JNum.nan => true
  | _ => false

/-- String payload of a primitive; the handlers apply it only after a
`typeof v === "string"` guard has established the value is a string. -/
def asString : JPrim → String
  | JPrim.str s => s
  | _ => ""

/-- One hex character rendered as `parseInt(char, 16).toString(2)` followed by
`padStart(4, "0")`: the up-to-4 binary digits of its value padded to width 4,
and the four characters `0NaN` for a non-hex character (`String(NaN)` padded). -/
def padStartZeros (l : List Char) : List Char :=
  List.replicate (4 - l.length) '0' ++ l

/-- Binary chunk contributed by one character of the hex string. -/
def charToBinaryChunk (c : Char) : List Char :=
  match hexCharValue c with
  | some d => padStartZeros (Nat.toDigits 2 d)
  | none => padStartZeros ['N', 'a', 'N']

/-- `hexToBinary` of `src/utils/hammingDistance.ts`: concatenation of the
per-character binary chunks. -/
def hexToBinary (hex : String) : List Char :=
  (hex.data.map charToBinaryChunk).flatten

/-- The counting loop of `calculateHammingDistance`: iterate over the indices
of the first string; an index past the end of the second string reads
`undefined`, which differs from any character. -/
def countDiff : List Char → List Char → Nat
  | [], _ => 0
  | _ :: as, [] => 1 + countDiff as []
  | a :: as, b :: bs => (if a ≠ b then 1 else 0) + countDiff as bs

/-- `calculateHammingDistance` of `src/utils/hammingDistance.ts`: throws
(`Except.error`) when the strings have different lengths, otherwise counts
positional mismatches between the two binary expansions. -/
def calculateHammingDistance (hash1 hash2 : String) : Except String Nat :=
  if hash1.length ≠ hash2.length then
    Except.error "Hashes must have the same length"
  else
    Except.ok (countDiff (hexToBinary hash1) (hexToBinary hash2))

/-- `ImageService.isValidHash`: the test of `^[0-9a-fA-F]{64}$`. -/
def isValidHash (hash : String) : Bool :=
  hash.length == 64 && hash.data.all isHexDigitChar

/-- Result record of `ImageService.compareImageHashes`. -/
structure ImageComparisonResult where
  distance : Int
  isSimilar : Bool
  success : Bool
  similarity : Rat
  error : Option String
deriving DecidableEq

/-- Per-candidate record of `ImageService.compareHashWithCandidates`. -/
structure BatchComparisonResult where
  hash : String
  distance : Int
  isSimilar : Bool
  similarity : Rat
deriving DecidableEq

/-- `ImageService.compareImageHashes`.  The TypeScript default `threshold = 10`
is applied by the route destructuring, so the threshold is passed explicitly
here; it is kept as a `JPrim` because the untyped request body can hand the
`distance <= threshold` comparison a value of any type.  The `catch` branch is
the source's conversion of a thrown length-mismatch error into a structured
failure result. -/
def compareImageHashes (hash1 hash2 : String) (threshold : JPrim) :
    ImageComparisonResult :=
  if !(isValidHash hash1) || !(isValidHash hash2) then
    { distance := -1, isSimilar := false, success := false, similarity := 1,
      error := some "Invalid hash format. Expected 64-character hex string." }
  else
    match calculateHammingDistance hash1 hash2 with
    | Except.ok d =>
      { distance := (d : Int),
        isSimilar := jnLe (JNum.fin (d : Rat)) (jsToNumber threshold),
        success := true,
        similarity := 1 - (d : Rat) / 256,
        error := none }
    | Except.error msg =>
      { distance := -1, isSimilar := false, success := false, similarity := 1,
        error := some msg }

/-- `ImageService.compareHashWithCandidates`: empty output for an invalid
target, otherwise the valid candidates in order, each compared to the target. -/
def compareHashWithCandidates (targetHash : String)
    (candidateHashes : List String) (threshold : JPrim) :
    List BatchComparisonResult :=
  if !(isValidHash targetHash) then []
  else
    (candidateHashes.filter (fun hash => isValidHash hash)).map (fun hash =>
      let comparison := compareImageHashes targetHash hash threshold
      { hash := hash, distance := comparison.distance,
        isSimilar := comparison.isSimilar, similarity := comparison.similarity })

/-- Body of a `POST /compare` request after JSON parsing; an absent field is
`JPrim.undef`. -/
structure CompareRequestBody where
  hash1 : JPrim
  hash2 : JPrim
  threshold : JPrim
deriving DecidableEq

/-- Body of a `POST /compare-batch` request after JSON parsing. -/
structure CompareBatchBody where
  targetHash : JPrim
  candidateHashes : JVal
  threshold : JPrim
deriving DecidableEq

/-- Response sent by a handler: an error status with a message, or the JSON
success payload of the respective endpoint (`success: true` is implicit in the
`compareOk`/`batchOk` constructors). -/
inductive HandlerResponse where
  | error (status : Nat) (message : Option String)
  | compareOk (distance : Int) (isSimilar : Bool) (similarity : Rat)
  | batchOk (results : List BatchComparisonResult)
      (totalCandidates validCandidates : Nat)
deriving DecidableEq

/-- The `POST /compare` handler of `src/routes/imageRoutes.ts`. -/
def compareHandler (body : CompareRequestBody) : HandlerResponse :=
  let threshold :=
    match body.threshold with
    | JPrim.undef => JPrim.num (JNum.fin 10)
    | t => t
  if jsFalsy body.hash1 || jsFalsy body.hash2 then
    HandlerResponse.error 400 (some "Two hashes must be provided (hash1 and hash2)")
  else if !(jsTypeof body.hash1 == "string") || !(jsTypeof body.hash2 == "string") then
    HandlerResponse.error 400 (some "Hashes must be strings")
  else if jprimIsNaN threshold || jnLt (jsToNumber threshold) (JNum.fin 0) then
    HandlerResponse.error 400 (some "Threshold must be a positive number")
  else
    let result := compareImageHashes (asString body.hash1) (asString body.hash2) threshold
    if !result.success then
      HandlerResponse.error 400 result.error
    else
      HandlerResponse.compareOk result.distance result.isSimilar result.similarity

/-- The `POST /compare-batch` handler of `src/routes/imageRoutes.ts`. -/
def compareBatchHandler (body : CompareBatchBody) : HandlerResponse :=
  let threshold :=
    match body.threshold with
    | JPrim.undef => JPrim.num (JNum.fin 10)
    | t => t
  if jsFalsy body.targetHash || jvalFalsy body.candidateHashes then
    HandlerResponse.error 400 (some "Target hash and candidate hashes array must be provided")
  else if !(jsTypeof body.targetHash == "string") then
    HandlerResponse.error 400 (some "Target hash must be a string")
  else
    match body.candidateHashes with
    | JVal.prim _ =>
      HandlerResponse.error 400 (some "Candidate hashes must be an array")
    | JVal.arr elems =>
      if elems.length == 0 then
        HandlerResponse.error 400 (some "Candidate hashes array cannot be empty")
      else if !(elems.all (fun h => jsTypeof h == "string")) then
        HandlerResponse.error 400 (some "All candidate hashes must be strings")
      else if jprimIsNaN threshold || jnLt (jsToNumber threshold) (JNum.fin 0) then
        HandlerResponse.error 400 (some "Threshold must be a positive number")
      else
        let results := compareHashWithCandidates (asString body.targetHash)
          (elems.map asString) threshold
        HandlerResponse.batchOk results elems.length results.length

set_option maxRecDepth 4000

/-! ### Structural lemmas about the embedded code -/

theorem hexCharValue_lt_16 {c : Char} {d : Nat} (h : hexCharValue c = some d) :
    d < 16 := by
  simp only [hexCharValue] at h
  split_ifs at h with h1 h2 h3 <;> simp_all <;> omega

theorem toDigits_length_le_four {d : Nat} (h : d < 16) :
    (Nat.toDigits 2 d).length ≤ 4 := by
  interval_cases d <;> decide

theorem charToBinaryChunk_length (c : Char) : (charToBinaryChunk c).length = 4 := by
  unfold charToBinaryChunk
  cases h : hexCharValue c with
  | none => rfl
  | some d =>
    have hd := hexCharValue_lt_16 h
    have hlen := toDigits_length_le_four hd
    simp only [padStartZeros, List.length_append, List.length_replicate]
    omega

theorem hexToBinary_length (s : String) : (hexToBinary s).length = 4 * s.length := by
  show ((s.data.map charToBinaryChunk).flatten).length = 4 * s.data.length
  induction s.data with
  | nil => rfl
  | cons c cs ih =>
    simp only [List.map_cons, List.flatten_cons, List.length_append,
      charToBinaryChunk_length, ih, List.length_cons]
    omega

theorem countDiff_le (l1 l2 : List Char) : countDiff l1 l2 ≤ l1.length := by
  induction l1 generalizing l2 with
  | nil => simp [countDiff]
  | cons a as ih =>
    cases l2 with
    | nil =>
      have h := ih ([] : List Char)
      simp only [countDiff, List.length_cons]
      omega
    | cons b bs =>
      have h := ih bs
      simp only [countDiff, List.length_cons]
      split <;> omega

theorem countDiff_self (l : List Char) : countDiff l l = 0 := by
  induction l with
  | nil => rfl
  | cons a as ih => simp [countDiff, ih]

theorem isValidHash_length {s : String} (h : isValidHash s = true) :
    s.length = 64 := by
  simp only [isValidHash, Bool.and_eq_true, beq_iff_eq] at h
  exact h.1

theorem countDiff_hexToBinary_le (a b : String) (ha : isValidHash a = true) :
    countDiff (hexToBinary a) (hexToBinary b) ≤ 256 := by
  have h := countDiff_le (hexToBinary a) (hexToBinary b)
  rw [hexToBinary_length, isValidHash_length ha] at h
  omega

theorem hamming_ok (a b : String) (hlen : a.length = b.length) :
    calculateHammingDistance a b =
      Except.ok (countDiff (hexToBinary a) (hexToBinary b)) := by
  unfold calculateHammingDistance
  simp [hlen]

theorem compareImageHashes_valid (a b : String) (t : JPrim)
    (ha : isValidHash a = true) (hb : isValidHash b = true) :
    compareImageHashes a b t =
      { distance := (countDiff (hexToBinary a) (hexToBinary b) : Int),
        isSimilar := jnLe (JNum.fin (countDiff (hexToBinary a) (hexToBinary b) : Rat))
          (jsToNumber t),
        success := true,
        similarity := 1 - (countDiff (hexToBinary a) (hexToBinary b) : Rat) / 256,
        error := none } := by
  have hlen : a.length = b.length := by
    rw [isValidHash_length ha, isValidHash_length hb]
  unfold compareImageHashes
  rw [ha, hb, hamming_ok a b hlen]
  rfl

theorem compareHashWithCandidates_invalid (target : String) (cs : List String)
    (t : JPrim) (hv : isValidHash target = false) :
    compareHashWithCandidates target cs t = [] := by
  unfold compareHashWithCandidates
  rw [hv]
  rfl

theorem compareHashWithCandidates_valid (target : String) (cs : List String)
    (t : JPrim) (hv : isValidHash target = true) :
    compareHashWithCandidates target cs t =
      (cs.filter (fun hash => isValidHash hash)).map (fun hash =>
        { hash := hash,
          distance := (compareImageHashes target hash t).distance,
          isSimilar := (compareImageHashes target hash t).isSimilar,
          similarity := (compareImageHashes target hash t).similarity }) := by
  unfold compareHashWithCandidates
  rw [hv]
  rfl

/-! ### The claims -/

/-- C1: for every pair of fingerprints matching the 64-hex-character pattern,
the Hamming distance is between 0 and 256 (totalBits) and the comparison
result reports that distance unchanged with similarity exactly
`1 - distance/256`. -/
theorem c1_distance_range_similarity_exact (a b : String) (t : JPrim)
    (ha : isValidHash a = true) (hb : isValidHash b = true) :
    ∃ d : Nat, calculateHammingDistance a b = Except.ok d ∧ d ≤ 256 ∧
      (compareImageHashes a b t).distance = (d : Int) ∧
      0 ≤ (compareImageHashes a b t).distance ∧
      (compareImageHashes a b t).similarity = 1 - (d : Rat) / 256 := by
  have hlen : a.length = b.length := by
    rw [isValidHash_length ha, isValidHash_length hb]
  refine ⟨countDiff (hexToBinary a) (hexToBinary b), hamming_ok a b hlen,
    countDiff_hexToBinary_le a b ha, ?_, ?_, ?_⟩ <;>
    rw [compareImageHashes_valid a b t ha hb]
  exact Int.natCast_nonneg _

/-- C1 witness: the all-zero and all-f fingerprints instantiate the claim. -/
theorem c1_distance_range_similarity_exact_witness :
    isValidHash "0000000000000000000000000000000000000000000000000000000000000000" = true ∧
    isValidHash "ffffffffffffffffffffffffffffffffffffffffffffffffffffffffffffffff" = true ∧
    (∃ d : Nat,
      calculateHammingDistance "0000000000000000000000000000000000000000000000000000000000000000" "ffffffffffffffffffffffffffffffffffffffffffffffffffffffffffffffff" = Except.ok d ∧ d ≤ 256 ∧
      (compareImageHashes "0000000000000000000000000000000000000000000000000000000000000000" "ffffffffffffffffffffffffffffffffffffffffffffffffffffffffffffffff"
        (JPrim.num (JNum.fin 10))).distance = (d : Int) ∧
      0 ≤ (compareImageHashes "0000000000000000000000000000000000000000000000000000000000000000" "ffffffffffffffffffffffffffffffffffffffffffffffffffffffffffffffff"
        (JPrim.num (JNum.fin 10))).distance ∧
      (compareImageHashes "0000000000000000000000000000000000000000000000000000000000000000" "ffffffffffffffffffffffffffffffffffffffffffffffffffffffffffffffff"
        (JPrim.num (JNum.fin 10))).similarity = 1 - (d : Rat) / 256) :=
  ⟨by decide, by decide,
    c1_distance_range_similarity_exact _ _ _ (by decide) (by decide)⟩

/-- C2: for valid fingerprints and a non-negative numeric threshold t, the
comparison is similar exactly when the distance is at most t, and since the
distance is an integer this is equivalent to comparing against the floor of a
fractional threshold. -/
theorem c2_threshold_boundary_floor (a b : String) (t : Rat) (d : Nat)
    (ha : isValidHash a = true) (hb : isValidHash b = true) (ht : 0 ≤ t)
    (hd : calculateHammingDistance a b = Except.ok d) :
    ((compareImageHashes a b (JPrim.num (JNum.fin t))).isSimilar = true ↔
      (d : Rat) ≤ t) ∧
    ((d : Rat) ≤ t ↔ d ≤ Nat.floor t) := by
  have hlen : a.length = b.length := by
    rw [isValidHash_length ha, isValidHash_length hb]
  have hdd : countDiff (hexToBinary a) (hexToBinary b) = d := by
    rw [hamming_ok a b hlen] at hd
    exact Except.ok.inj hd
  constructor
  · rw [compareImageHashes_valid a b (JPrim.num (JNum.fin t)) ha hb]
    show jnLe (JNum.fin (countDiff (hexToBinary a) (hexToBinary b) : Rat))
      (jsToNumber (JPrim.num (JNum.fin t))) = true ↔ _
    rw [hdd]
    simp [jnLe, jsToNumber]
  · exact (Nat.le_floor_iff ht).symm

/-- C2 witness: fingerprints at distance 1 against the fractional
threshold 3/2, which acts as its floor 1. -/
theorem c2_threshold_boundary_floor_witness :
    isValidHash "0000000000000000000000000000000000000000000000000000000000000000" = true ∧
    isValidHash "1000000000000000000000000000000000000000000000000000000000000000" = true ∧
    0 ≤ (3/2 : Rat) ∧
    calculateHammingDistance "0000000000000000000000000000000000000000000000000000000000000000" "1000000000000000000000000000000000000000000000000000000000000000" = Except.ok 1 ∧
    (((compareImageHashes "0000000000000000000000000000000000000000000000000000000000000000" "1000000000000000000000000000000000000000000000000000000000000000"
        (JPrim.num (JNum.fin (3/2)))).isSimilar = true ↔ ((1:Nat) : Rat) ≤ 3/2) ∧
      (((1:Nat) : Rat) ≤ 3/2 ↔ (1:Nat) ≤ Nat.floor (3/2 : Rat))) :=
  ⟨by decide, by decide, by norm_num, by rfl,
    c2_threshold_boundary_floor _ _ _ 1 (by decide) (by decide) (by norm_num) (by rfl)⟩

/-- C3: comparing a valid fingerprint with itself at any non-negative numeric
threshold gives distance 0, similarity 1 and a positive similarity verdict. -/
theorem c3_compare_identity (h : String) (t : Rat)
    (hv : isValidHash h = true) (ht : 0 ≤ t) :
    (compareImageHashes h h (JPrim.num (JNum.fin t))).distance = 0 ∧
    (compareImageHashes h h (JPrim.num (JNum.fin t))).similarity = 1 ∧
    (compareImageHashes h h (JPrim.num (JNum.fin t))).isSimilar = true := by
  rw [compareImageHashes_valid h h (JPrim.num (JNum.fin t)) hv hv, countDiff_self]
  refine ⟨rfl, by norm_num, ?_⟩
  show jnLe (JNum.fin ((0:Nat) : Rat)) (jsToNumber (JPrim.num (JNum.fin t))) = true
  simp only [jsToNumber, jnLe, Nat.cast_zero, decide_eq_true_eq]
  exact ht

/-- C3 witness: the all-zero fingerprint against itself at threshold 0. -/
theorem c3_compare_identity_witness :
    isValidHash "0000000000000000000000000000000000000000000000000000000000000000" = true ∧ 0 ≤ (0 : Rat) ∧
    ((compareImageHashes "0000000000000000000000000000000000000000000000000000000000000000" "0000000000000000000000000000000000000000000000000000000000000000"
        (JPrim.num (JNum.fin 0))).distance = 0 ∧
      (compareImageHashes "0000000000000000000000000000000000000000000000000000000000000000" "0000000000000000000000000000000000000000000000000000000000000000"
        (JPrim.num (JNum.fin 0))).similarity = 1 ∧
      (compareImageHashes "0000000000000000000000000000000000000000000000000000000000000000" "0000000000000000000000000000000000000000000000000000000000000000"
        (JPrim.num (JNum.fin 0))).isSimilar = true) :=
  ⟨by decide, by decide, c3_compare_identity _ _ (by decide) (by decide)⟩

/-- C4: for a valid target, the batch comparison has exactly one entry per
candidate that individually matches the hex pattern, in input order, whose
hash field is that candidate string (invalid candidates are dropped). -/
theorem c4_batch_filter_order_hash (target : String) (cs : List String)
    (t : JPrim) (hv : isValidHash target = true) :
    (compareHashWithCandidates target cs t).map (fun r => r.hash) =
      cs.filter (fun h => isValidHash h) := by
  rw [compareHashWithCandidates_valid target cs t hv, List.map_map]
  exact List.map_id' _

/-- C4 witness: a valid and an invalid candidate against the all-f target. -/
theorem c4_batch_filter_order_hash_witness :
    isValidHash "ffffffffffffffffffffffffffffffffffffffffffffffffffffffffffffffff" = true ∧
    (compareHashWithCandidates "ffffffffffffffffffffffffffffffffffffffffffffffffffffffffffffffff"
        ["0000000000000000000000000000000000000000000000000000000000000000", "not-a-hash"]
        (JPrim.num (JNum.fin 50))).map (fun r => r.hash) =
      (["0000000000000000000000000000000000000000000000000000000000000000", "not-a-hash"] : List String).filter
        (fun h => isValidHash h) :=
  ⟨by decide, c4_batch_filter_order_hash _ _ _ (by decide)⟩

/-- C5: a target failing the hex pattern makes the whole batch vacuous: the
result sequence is empty, whatever the candidates are. -/
theorem c5_invalid_target_empty_batch (target : String) (cs : List String)
    (t : JPrim) (hv : isValidHash target = false) :
    compareHashWithCandidates target cs t = [] :=
  compareHashWithCandidates_invalid target cs t hv

/-- C5 witness: an invalid target with a valid candidate yields no results. -/
theorem c5_invalid_target_empty_batch_witness :
    isValidHash "not-a-hash" = false ∧
    compareHashWithCandidates "not-a-hash"
      ["0000000000000000000000000000000000000000000000000000000000000000"] (JPrim.num (JNum.fin 50)) = [] :=
  ⟨by decide, c5_invalid_target_empty_batch _ _ _ (by decide)⟩

/-- C6: `compareImageHashes` is a total function (the embedding of the
try/catch body): whenever either input fails the hex pattern — which covers
every pair of strings of differing length, the length-mismatch case, since a
valid hash must have length 64 — it returns a structured failure, success
false with the explanatory message, and no exception reaches the caller. -/
theorem c6_compare_structured_failure (h1 h2 : String) (t : JPrim)
    (hbad : (isValidHash h1 && isValidHash h2) = false) :
    (compareImageHashes h1 h2 t).success = false ∧
    (compareImageHashes h1 h2 t).error =
      some "Invalid hash format. Expected 64-character hex string." := by
  have hcond : (!(isValidHash h1) || !(isValidHash h2)) = true := by
    cases hx : isValidHash h1 <;> cases hy : isValidHash h2 <;> simp_all
  unfold compareImageHashes
  rw [hcond]
  exact ⟨rfl, rfl⟩

/-- C6 witness: two hex strings of differing length (the length-mismatch
case) yield a structured failure, not an exception. -/
theorem c6_compare_structured_failure_witness :
    (isValidHash "ff" && isValidHash "ffff") = false ∧
    ((compareImageHashes "ff" "ffff" (JPrim.num (JNum.fin 10))).success = false ∧
      (compareImageHashes "ff" "ffff" (JPrim.num (JNum.fin 10))).error =
        some "Invalid hash format. Expected 64-character hex string.") :=
  ⟨by decide, c6_compare_structured_failure _ _ _ (by decide)⟩

/-- C8 counterexample: the claim ranges over any string inputs, but on an
invalid input the returned ComparisonResult carries distance -1, which is not
a non-negative integer. -/
theorem c8_counterexample_negative_distance :
    (compareImageHashes "not-a-hash" "not-a-hash"
      (JPrim.num (JNum.fin 10))).distance < 0 := by decide

/-- C8 (amended): every successful ComparisonResult has a non-negative
integer distance and similarity within [0, 1]; failed results instead carry
the sentinel distance -1 (their similarity 1 is still inside [0, 1]). -/
theorem c8_success_result_invariants (h1 h2 : String) (t : JPrim)
    (hs : (compareImageHashes h1 h2 t).success = true) :
    0 ≤ (compareImageHashes h1 h2 t).distance ∧
    0 ≤ (compareImageHashes h1 h2 t).similarity ∧
    (compareImageHashes h1 h2 t).similarity ≤ 1 := by
  cases hv1 : isValidHash h1 with
  | false =>
    have hcond : (!(isValidHash h1) || !(isValidHash h2)) = true := by simp [hv1]
    unfold compareImageHashes at hs
    rw [hcond] at hs
    simp at hs
  | true =>
    cases hv2 : isValidHash h2 with
    | false =>
      have hcond : (!(isValidHash h1) || !(isValidHash h2)) = true := by simp [hv2]
      unfold compareImageHashes at hs
      rw [hcond] at hs
      simp at hs
    | true =>
      rw [compareImageHashes_valid h1 h2 t hv1 hv2]
      have hle : ((countDiff (hexToBinary h1) (hexToBinary h2) : Nat) : Rat) ≤ 256 := by
        exact_mod_cast countDiff_hexToBinary_le h1 h2 hv1
      refine ⟨Int.natCast_nonneg _, ?_, ?_⟩
      · show (0:Rat) ≤ 1 - (countDiff (hexToBinary h1) (hexToBinary h2) : Rat) / 256
        have hdiv : (countDiff (hexToBinary h1) (hexToBinary h2) : Rat) / 256 ≤ 1 := by
          rw [div_le_one (by norm_num : (0:Rat) < 256)]
          exact hle
        linarith
      · show 1 - (countDiff (hexToBinary h1) (hexToBinary h2) : Rat) / 256 ≤ (1:Rat)
        have hdiv : (0:Rat) ≤ (countDiff (hexToBinary h1) (hexToBinary h2) : Rat) / 256 := by
          positivity
        linarith

/-- C8 (amended) witness: a successful self-comparison satisfies the
invariants. -/
theorem c8_success_result_invariants_witness :
    (compareImageHashes "0000000000000000000000000000000000000000000000000000000000000000" "0000000000000000000000000000000000000000000000000000000000000000"
      (JPrim.num (JNum.fin 10))).success = true ∧
    (0 ≤ (compareImageHashes "0000000000000000000000000000000000000000000000000000000000000000" "0000000000000000000000000000000000000000000000000000000000000000"
        (JPrim.num (JNum.fin 10))).distance ∧
      0 ≤ (compareImageHashes "0000000000000000000000000000000000000000000000000000000000000000" "0000000000000000000000000000000000000000000000000000000000000000"
        (JPrim.num (JNum.fin 10))).similarity ∧
      (compareImageHashes "0000000000000000000000000000000000000000000000000000000000000000" "0000000000000000000000000000000000000000000000000000000000000000"
        (JPrim.num (JNum.fin 10))).similarity ≤ 1) :=
  ⟨by decide, c8_success_result_invariants _ _ _ (by decide)⟩

/-- C10: every failed comparison result — the invalid-format branch and the
catch branch alike — carries the fixed sentinel values distance -1,
isSimilar false and similarity 1. -/
theorem c10_failure_sentinel_values (h1 h2 : String) (t : JPrim)
    (hf : (compareImageHashes h1 h2 t).success = false) :
    (compareImageHashes h1 h2 t).distance = -1 ∧
    (compareImageHashes h1 h2 t).isSimilar = false ∧
    (compareImageHashes h1 h2 t).similarity = 1 := by
  cases hv1 : isValidHash h1 with
  | false =>
    have hcond : (!(isValidHash h1) || !(isValidHash h2)) = true := by simp [hv1]
    unfold compareImageHashes
    rw [hcond]
    exact ⟨rfl, rfl, rfl⟩
  | true =>
    cases hv2 : isValidHash h2 with
    | false =>
      have hcond : (!(isValidHash h1) || !(isValidHash h2)) = true := by simp [hv2]
      unfold compareImageHashes
      rw [hcond]
      exact ⟨rfl, rfl, rfl⟩
    | true =>
      rw [compareImageHashes_valid h1 h2 t hv1 hv2] at hf
      simp at hf

/-- C10 witness: a failed comparison exhibits the sentinel values. -/
theorem c10_failure_sentinel_values_witness :
    (compareImageHashes "xy" "xyz" JPrim.null).success = false ∧
    ((compareImageHashes "xy" "xyz" JPrim.null).distance = -1 ∧
      (compareImageHashes "xy" "xyz" JPrim.null).isSimilar = false ∧
      (compareImageHashes "xy" "xyz" JPrim.null).similarity = 1) :=
  ⟨by decide, c10_failure_sentinel_values _ _ _ (by decide)⟩

/-- C7 counterexample: when the target fails the hex pattern the batch
handler reports validCandidates as the length of the (empty) results, not as
the number of individually valid candidates: one valid candidate is submitted
yet the response says validCandidates 0 while the filtered count is 1. -/
theorem c7_counterexample_invalid_target_counts :
    compareBatchHandler
        ⟨JPrim.str "not-a-hash",
          JVal.arr [JPrim.str "0000000000000000000000000000000000000000000000000000000000000000"],
          JPrim.num (JNum.fin 50)⟩ =
      HandlerResponse.batchOk [] 1 0 ∧
    ((["0000000000000000000000000000000000000000000000000000000000000000"] : List String).filter
      (fun h => isValidHash h)).length = 1 := by
  exact ⟨by decide, by decide⟩

/-- C7 (amended): for a batch request passing input validation the response
reports totalCandidates as the number of submitted candidates, and
validCandidates as the length of the results — which equals the number of
individually valid candidates when the target is valid, but is 0 whenever the
target fails the hex pattern, however many candidates are valid. -/
theorem c7_batch_counts_target_dependent (target : String) (cs : List String)
    (t : Rat) (hne : cs ≠ []) (hts : target ≠ "") (ht : 0 ≤ t) :
    compareBatchHandler
        ⟨JPrim.str target, JVal.arr (cs.map JPrim.str),
          JPrim.num (JNum.fin t)⟩ =
      HandlerResponse.batchOk
        (compareHashWithCandidates target cs (JPrim.num (JNum.fin t)))
        cs.length
        (compareHashWithCandidates target cs (JPrim.num (JNum.fin t))).length ∧
    (isValidHash target = true →
      (compareHashWithCandidates target cs (JPrim.num (JNum.fin t))).length =
        (cs.filter (fun h => isValidHash h)).length) ∧
    (isValidHash target = false →
      (compareHashWithCandidates target cs (JPrim.num (JNum.fin t))).length = 0) := by
  refine ⟨?_, ?_, ?_⟩
  · unfold compareBatchHandler
    have h0 : (target == "") = false := beq_eq_false_iff_ne.mpr hts
    have h1 : (cs.length == 0) = false := by
      simp only [beq_eq_false_iff_ne, ne_eq, List.length_eq_zero]
      exact hne
    have h2 : ¬ t < 0 := not_lt.mpr ht
    have hmap : List.map (asString ∘ JPrim.str) cs = cs := by
      simp [Function.comp_def, asString]
    simp [jsFalsy, jvalFalsy, jsTypeof, jprimIsNaN, jsToNumber, jnLt, asString,
      List.all_map, Function.comp, h0, h1, h2, hmap]
  · intro hv
    rw [compareHashWithCandidates_valid target cs _ hv, List.length_map]
  · intro hv
    rw [compareHashWithCandidates_invalid target cs _ hv]
    rfl

/-- C7 (amended) witness: a valid target with one invalid candidate. -/
theorem c7_batch_counts_target_dependent_witness :
    (["not-a-hash"] : List String) ≠ [] ∧
    "0000000000000000000000000000000000000000000000000000000000000000" ≠ "" ∧
    0 ≤ (10 : Rat) ∧
    (compareBatchHandler
        ⟨JPrim.str "0000000000000000000000000000000000000000000000000000000000000000",
          JVal.arr ((["not-a-hash"] : List String).map JPrim.str),
          JPrim.num (JNum.fin 10)⟩ =
      HandlerResponse.batchOk
        (compareHashWithCandidates "0000000000000000000000000000000000000000000000000000000000000000"
          ["not-a-hash"] (JPrim.num (JNum.fin 10)))
        (["not-a-hash"] : List String).length
        (compareHashWithCandidates "0000000000000000000000000000000000000000000000000000000000000000"
          ["not-a-hash"] (JPrim.num (JNum.fin 10))).length ∧
      (isValidHash "0000000000000000000000000000000000000000000000000000000000000000" = true →
        (compareHashWithCandidates "0000000000000000000000000000000000000000000000000000000000000000"
          ["not-a-hash"] (JPrim.num (JNum.fin 10))).length =
          ((["not-a-hash"] : List String).filter (fun h => isValidHash h)).length) ∧
      (isValidHash "0000000000000000000000000000000000000000000000000000000000000000" = false →
        (compareHashWithCandidates "0000000000000000000000000000000000000000000000000000000000000000"
          ["not-a-hash"] (JPrim.num (JNum.fin 10))).length = 0)) :=
  ⟨by decide, by decide, by decide,
    c7_batch_counts_target_dependent _ _ _ (by decide) (by decide) (by decide)⟩

/-- C9 counterexample: a wrong-typed threshold (null, whose typeof is not
"number") is not rejected by the compare handler: the guard
`Number.isNaN(threshold) || threshold < 0` passes it, the comparison runs,
and the request succeeds. -/
theorem c9_counterexample_null_threshold_accepted :
    compareHandler
        ⟨JPrim.str "0000000000000000000000000000000000000000000000000000000000000000",
          JPrim.str "0000000000000000000000000000000000000000000000000000000000000000", JPrim.null⟩ =
      HandlerResponse.compareOk 0 true 1 ∧
    jsTypeof JPrim.null ≠ "number" := by
  constructor
  · have hz : isValidHash "0000000000000000000000000000000000000000000000000000000000000000" = true := by decide
    have hres : compareImageHashes "0000000000000000000000000000000000000000000000000000000000000000"
        "0000000000000000000000000000000000000000000000000000000000000000" JPrim.null =
        { distance := 0, isSimilar := true, success := true, similarity := 1,
          error := none } := by
      rw [compareImageHashes_valid _ _ _ hz hz, countDiff_self]
      simp [jsToNumber, jnLe]
    have hzf : ("0000000000000000000000000000000000000000000000000000000000000000" == "") = false := by decide
    have hlt : jnLt (jsToNumber JPrim.null) (JNum.fin 0) = false := by decide
    unfold compareHandler
    simp [jsFalsy, jsTypeof, jprimIsNaN, asString, hzf, hlt, hres]
  · decide

/-- C9 (amended): the handlers reject a threshold that is the NaN value or a
negative number before any comparison runs, for both compare and
compare-batch; but a wrong-typed threshold is not rejected (see the
counterexample). -/
theorem c9_threshold_guard_rejects_nan_negative (s1 s2 : String)
    (cs : List String) (q : Rat)
    (h1 : s1 ≠ "") (h2 : s2 ≠ "") (hcs : cs ≠ []) (hq : q < 0) :
    compareHandler ⟨JPrim.str s1, JPrim.str s2, JPrim.num (JNum.fin q)⟩ =
      HandlerResponse.error 400 (some "Threshold must be a positive number") ∧
    compareHandler ⟨JPrim.str s1, JPrim.str s2, JPrim.num JNum.nan⟩ =
      HandlerResponse.error 400 (some "Threshold must be a positive number") ∧
    compareBatchHandler
        ⟨JPrim.str s1, JVal.arr (cs.map JPrim.str), JPrim.num (JNum.fin q)⟩ =
      HandlerResponse.error 400 (some "Threshold must be a positive number") ∧
    compareBatchHandler
        ⟨JPrim.str s1, JVal.arr (cs.map JPrim.str), JPrim.num JNum.nan⟩ =
      HandlerResponse.error 400 (some "Threshold must be a positive number") := by
  have hb1 : (s1 == "") = false := beq_eq_false_iff_ne.mpr h1
  have hb2 : (s2 == "") = false := beq_eq_false_iff_ne.mpr h2
  have hlen : (cs.length == 0) = false := by
    simp only [beq_eq_false_iff_ne, ne_eq, List.length_eq_zero]
    exact hcs
  refine ⟨?_, ?_, ?_, ?_⟩
  · unfold compareHandler
    simp [jsFalsy, jsTypeof, jprimIsNaN, jsToNumber, jnLt, hb1, hb2, hq]
  · unfold compareHandler
    simp [jsFalsy, jsTypeof, jprimIsNaN, hb1, hb2]
  · unfold compareBatchHandler
    simp [jsFalsy, jvalFalsy, jsTypeof, jprimIsNaN, jsToNumber, jnLt,
      List.all_map, Function.comp, hb1, hlen, hq]
  · unfold compareBatchHandler
    simp [jsFalsy, jvalFalsy, jsTypeof, jprimIsNaN, List.all_map,
      Function.comp, hb1, hlen]

/-- C9 (amended) witness: threshold -1 and NaN on nonempty string hashes and
a two-candidate batch. -/
theorem c9_threshold_guard_rejects_nan_negative_witness :
    "a" ≠ "" ∧ "b" ≠ "" ∧ (["b", "c"] : List String) ≠ [] ∧ (-1 : Rat) < 0 ∧
    (compareHandler ⟨JPrim.str "a", JPrim.str "b", JPrim.num (JNum.fin (-1))⟩ =
        HandlerResponse.error 400 (some "Threshold must be a positive number") ∧
      compareHandler ⟨JPrim.str "a", JPrim.str "b", JPrim.num JNum.nan⟩ =
        HandlerResponse.error 400 (some "Threshold must be a positive number") ∧
      compareBatchHandler
          ⟨JPrim.str "a",
            JVal.arr ((["b", "c"] : List String).map JPrim.str),
            JPrim.num (JNum.fin (-1))⟩ =
        HandlerResponse.error 400 (some "Threshold must be a positive number") ∧
      compareBatchHandler
          ⟨JPrim.str "a",
            JVal.arr ((["b", "c"] : List String).map JPrim.str),
            JPrim.num JNum.nan⟩ =
        HandlerResponse.error 400 (some "Threshold must be a positive number")) :=
  ⟨by decide, by decide, by decide, by decide,
    c9_threshold_guard_rejects_nan_negative _ _ _ _
      (by decide) (by decide) (by decide) (by decide)⟩
